import Mathlib

/-!
Verification of the AMD CPPC cpufreq driver core (src/amd_cppc.c).

The driver's core logic is embedded shallowly:
* `Softc` mirrors `struct amd_cppc_softc` (the per-core driver state);
* `Machine` adds the per-core MSR registers (`CPPC_CAP1`, `CPPC_ENABLE`,
  `CPPC_REQ`) so that hardware reads/writes become explicit state passing;
* each C function becomes a Lean function of the same name.

Machine integers are modelled as `Nat`/`Int` with explicit wrapping:
`toU64` is C's conversion to `uint64_t`, `toInt32` is the (implementation
defined, two's-complement wrap) conversion of a `uint64_t` to `int`, and
`% 256` models the `(uint8_t)` casts.  The hardware registers behave as
plain storage: a read returns the last value written.
-/

deriving instance DecidableEq for Except

namespace AmdCppc

/-- errno value ENXIO, returned by the driver on capability/enable failures
and on operations attempted while CPPC is disabled. -/
def ENXIO : Nat := 6

/-- errno value EINVAL, returned by the EPP sysctl handler for an
out-of-range preference. -/
def EINVAL : Nat := 22

/-- C conversion of a signed integer to `uint64_t` (reduction mod 2^64). -/
def toU64 (i : Int) : Nat := (i % (18446744073709551616 : Int)).toNat

/-- C conversion of a `uint64_t` value to `int`: keep the low 32 bits and
reinterpret them as a two's-complement signed value (the behaviour of the
compilers this driver is built with). -/
def toInt32 (n : Nat) : Int :=
  let m := n % 4294967296
  if m < 2147483648 then (m : Int) else (m : Int) - 4294967296

/-- Field extractor `AMD_CPPC_LOWEST_PERF(x)`: `((x) >> 0) & 0xFF`. -/
def AMD_CPPC_LOWEST_PERF (x : Nat) : Nat := (x >>> 0) &&& 0xFF

/-- Field extractor `AMD_CPPC_LOWNONLIN_PERF(x)`: `((x) >> 8) & 0xFF`. -/
def AMD_CPPC_LOWNONLIN_PERF (x : Nat) : Nat := (x >>> 8) &&& 0xFF

/-- Field extractor `AMD_CPPC_NOMINAL_PERF(x)`: `((x) >> 16) & 0xFF`. -/
def AMD_CPPC_NOMINAL_PERF (x : Nat) : Nat := (x >>> 16) &&& 0xFF

/-- Field extractor `AMD_CPPC_HIGHEST_PERF(x)`: `((x) >> 24) & 0xFF`. -/
def AMD_CPPC_HIGHEST_PERF (x : Nat) : Nat := (x >>> 24) &&& 0xFF

/-- `AMD_CPPC_REQ_BUILD(max, min, des, epp)`: pack the four request fields
into one `uint64_t` at bit offsets 0, 8, 16, 24. -/
def AMD_CPPC_REQ_BUILD (mx mn des epp : Nat) : Nat :=
  ((epp <<< 24) ||| (des <<< 16) ||| (mn <<< 8) ||| (mx <<< 0)) %
    18446744073709551616

/-- `struct amd_cppc_softc`: the per-core driver state.  The `uint8_t`
fields are `Nat`s kept below 256 by the operations; `base_freq_mhz` and
`epp` are C `int`s, modelled as `Int`. -/
structure Softc where
  highest_perf : Nat
  nominal_perf : Nat
  lowest_nonlinear_perf : Nat
  lowest_perf : Nat
  req_max_perf : Nat
  req_min_perf : Nat
  req_des_perf : Nat
  req_epp : Nat
  base_freq_mhz : Int
  epp : Int
  cppc_enabled : Bool
  deriving Repr, DecidableEq

/-- The per-core machine: driver state plus the three CPPC MSRs it touches.
`msr_cap1` is read-only hardware data; `msr_enable` and `msr_req` hold the
last value written. -/
structure Machine where
  sc : Softc
  msr_cap1 : Nat
  msr_enable : Nat
  msr_req : Nat
  deriving Repr, DecidableEq

/-- `amd_cppc_perf_to_mhz`: `base_freq * perf / nominal_perf` computed in
`uint64_t` and returned as `int`; returns 0 when `nominal_perf` is 0. -/
def amd_cppc_perf_to_mhz (sc : Softc) (perf : Nat) : Int :=
  if sc.nominal_perf = 0 then 0
  else toInt32 (toU64 sc.base_freq_mhz * perf % 18446744073709551616 /
    sc.nominal_perf)

/-- `amd_cppc_mhz_to_perf`: `mhz * nominal_perf / base_freq_mhz` computed in
`uint64_t`, truncated to `int`, clamped to `[lowest_perf, highest_perf]`,
then returned as `uint8_t`; returns `nominal_perf` when `base_freq_mhz`
is 0. -/
def amd_cppc_mhz_to_perf (sc : Softc) (mhz : Int) : Nat :=
  if sc.base_freq_mhz = 0 then sc.nominal_perf
  else
    let perf0 : Int := toInt32 (toU64 mhz * sc.nominal_perf %
      18446744073709551616 / toU64 sc.base_freq_mhz)
    let perf1 : Int := if perf0 < (sc.lowest_perf : Int) then
      (sc.lowest_perf : Int) else perf0
    let perf2 : Int := if perf1 > (sc.highest_perf : Int) then
      (sc.highest_perf : Int) else perf1
    (perf2 % 256).toNat

/-- `amd_cppc_epp_to_hw`: clamp the user EPP to `[0, 100]` and scale it to
the hardware's `[0, 255]` range by `epp * 255 / 100`. -/
def amd_cppc_epp_to_hw (epp : Int) : Nat :=
  let e1 : Int := if epp < 0 then 0 else epp
  let e2 : Int := if e1 > 100 then 100 else e1
  (e2.toNat * 255 / 100) % 256

/-- `amd_cppc_write_req`: write the packed request built from the current
softc state to `MSR_AMD_CPPC_REQ`. -/
def amd_cppc_write_req (m : Machine) : Machine :=
  { m with msr_req := (AMD_CPPC_REQ_BUILD m.sc.req_max_perf m.sc.req_min_perf
      m.sc.req_des_perf m.sc.req_epp) }

/-- `amd_cppc_enable`: read `MSR_AMD_CPPC_ENABLE`; if the enable bit is
clear, set it and re-read to verify; on success set `cppc_enabled`.  Returns
the new machine and `some errno` on failure. -/
def amd_cppc_enable (m : Machine) : Machine × Option Nat :=
  let val := m.msr_enable
  if val &&& 1 = 0 then
    let m1 := { m with msr_enable := val ||| 1 }
    let val2 := m1.msr_enable
    if val2 &&& 1 = 0 then (m1, some ENXIO)
    else ({ m1 with sc := { m1.sc with cppc_enabled := true } }, none)
  else ({ m with sc := { m.sc with cppc_enabled := true } }, none)

/-- `amd_cppc_disable`: no-op when already disabled; otherwise zero the
request register, clear the hardware enable bit, and clear `cppc_enabled`.
The in-memory `req_*` fields are not touched. -/
def amd_cppc_disable (m : Machine) : Machine :=
  if ¬ m.sc.cppc_enabled then m
  else
    let m1 := { m with msr_req := 0 }
    let val := m1.msr_enable
    let m2 := { m1 with msr_enable := val &&& 0xFFFFFFFFFFFFFFFE }
    { m2 with sc := { m2.sc with cppc_enabled := false } }

/-- `amd_cppc_read_caps`: read `MSR_AMD_CPPC_CAP1`, store the four extracted
bounds into the softc, then fail with ENXIO if any of highest/nominal/lowest
is zero or if `lowest_perf > nominal_perf` or `nominal_perf > highest_perf`.
Note the bounds are stored before validation, and `lowest_nonlinear_perf`
is not validated. -/
def amd_cppc_read_caps (m : Machine) : Machine × Option Nat :=
  let cap1 := m.msr_cap1
  let sc : Softc := { m.sc with
    highest_perf := AMD_CPPC_HIGHEST_PERF cap1
    nominal_perf := AMD_CPPC_NOMINAL_PERF cap1
    lowest_nonlinear_perf := AMD_CPPC_LOWNONLIN_PERF cap1
    lowest_perf := AMD_CPPC_LOWEST_PERF cap1 }
  let m1 := { m with sc := sc }
  if sc.highest_perf = 0 ∨ sc.nominal_perf = 0 ∨ sc.lowest_perf = 0 then
    (m1, some ENXIO)
  else if sc.nominal_perf < sc.lowest_perf ∨ sc.highest_perf < sc.nominal_perf
  then (m1, some ENXIO)
  else (m1, none)

/-- Core of `amd_cppc_sysctl_epp` once the sysctl framework has delivered a
new value `epp`: reject values outside `[0, 100]` with EINVAL (no state
change), otherwise store the preference, derive `req_epp`, and re-write the
request register when enabled. -/
def amd_cppc_sysctl_epp (m : Machine) (epp : Int) : Machine × Option Nat :=
  if epp < 0 ∨ 100 < epp then (m, some EINVAL)
  else
    let sc := { m.sc with epp := epp, req_epp := amd_cppc_epp_to_hw epp }
    let m1 := { m with sc := sc }
    if m1.sc.cppc_enabled then (amd_cppc_write_req m1, none) else (m1, none)

/-- `amd_cppc_resume`: re-read capabilities, re-enable, and re-write the
request register from the (unchanged) in-memory request state. -/
def amd_cppc_resume (m : Machine) : Machine × Option Nat :=
  match amd_cppc_read_caps m with
  | (m1, some err) => (m1, some err)
  | (m1, none) =>
    match amd_cppc_enable m1 with
    | (m2, some err) => (m2, some err)
    | (m2, none) => (amd_cppc_write_req m2, none)

/-- `amd_cppc_set`: fail with ENXIO while disabled; otherwise set
`req_max_perf` to the converted target, `req_min_perf` to `lowest_perf`,
`req_des_perf` to 0, and write the request register. -/
def amd_cppc_set (m : Machine) (freq : Int) : Machine × Option Nat :=
  if ¬ m.sc.cppc_enabled then (m, some ENXIO)
  else
    let target := amd_cppc_mhz_to_perf m.sc freq
    let sc := { m.sc with req_max_perf := target
                          req_min_perf := m.sc.lowest_perf
                          req_des_perf := 0 }
    (amd_cppc_write_req { m with sc := sc }, none)

/-- `amd_cppc_get`: fail with ENXIO while disabled; otherwise report the
last-requested max performance converted back to MHz. -/
def amd_cppc_get (m : Machine) : Except Nat Int :=
  if ¬ m.sc.cppc_enabled then .error ENXIO
  else .ok (amd_cppc_perf_to_mhz m.sc m.sc.req_max_perf)

/-- The `for (perf = highest; perf > lowest; perf -= step)` loop of
`amd_cppc_settings`, producing the list of generated MHz values.  `n`
counts entries so far against the caller budget and the absolute cap of
64 (`AMD_CPPC_MAX_SETTINGS`); the `perf % 256` is the `(uint8_t) perf`
cast of the call.  The extra fuel argument only realises termination:
fuel `perf + 1` suffices since `step ≥ 1` shrinks `perf` every round. -/
def amd_cppc_settings_loop (sc : Softc) (budget step : Nat) :
    Nat → Nat → Nat → List Int
  | 0, _, _ => []
  | fuel + 1, perf, n =>
    if sc.lowest_perf < perf then
      if budget ≤ n ∨ 64 ≤ n then []
      else amd_cppc_perf_to_mhz sc (perf % 256) ::
        amd_cppc_settings_loop sc budget step fuel (perf - step) (n + 1)
    else []

/-- `amd_cppc_settings`: fail with ENXIO while disabled; with an empty
performance range report zero entries; otherwise stride down from
`highest_perf` with `step = max(1, range/30)` and append `lowest_perf`'s
MHz value when budget remains.  Returns the generated MHz list and the
final `*count`. -/
def amd_cppc_settings (m : Machine) (count : Nat) :
    Except Nat (List Int × Nat) :=
  if ¬ m.sc.cppc_enabled then .error ENXIO
  else
    let range : Int := (m.sc.highest_perf : Int) - (m.sc.lowest_perf : Int)
    if range ≤ 0 then .ok ([], 0)
    else
      let r := m.sc.highest_perf - m.sc.lowest_perf
      let step := if r / 30 < 1 then 1 else r / 30
      let l := amd_cppc_settings_loop m.sc count step (m.sc.highest_perf + 1)
        m.sc.highest_perf 0
      let n := l.length
      if n < count ∧ n < 64 then
        (.ok (l ++ [amd_cppc_perf_to_mhz m.sc m.sc.lowest_perf], n + 1))
      else .ok (l, n)

/-- Property helper: computable strict-descent check for generated MHz
lists (each entry strictly greater than its successor). -/
def strictlyDescending : List Int → Bool
  | a :: b :: t => (decide (b < a)) && strictlyDescending (b :: t)
  | _ => true

/-- The capability-validation condition actually enforced by
`amd_cppc_read_caps`: highest/nominal/lowest nonzero and
`lowest_perf ≤ nominal_perf ≤ highest_perf`. -/
def caps_valid (cap1 : Nat) : Prop :=
  AMD_CPPC_HIGHEST_PERF cap1 ≠ 0 ∧ AMD_CPPC_NOMINAL_PERF cap1 ≠ 0 ∧
  AMD_CPPC_LOWEST_PERF cap1 ≠ 0 ∧
  AMD_CPPC_LOWEST_PERF cap1 ≤ AMD_CPPC_NOMINAL_PERF cap1 ∧
  AMD_CPPC_NOMINAL_PERF cap1 ≤ AMD_CPPC_HIGHEST_PERF cap1

instance (cap1 : Nat) : Decidable (caps_valid cap1) := by
  unfold caps_valid; infer_instance

/-- The spec's concrete scenario softc: capabilities
`{lowest=20, lowest_nl=40, nominal=100, highest=180}`, `base_freq_mhz=2000`,
default request state after attach, CPPC enabled. -/
def sc180 : Softc := {
  highest_perf := 180
  nominal_perf := 100
  lowest_nonlinear_perf := 40
  lowest_perf := 20
  req_max_perf := 180
  req_min_perf := 20
  req_des_perf := 0
  req_epp := 127
  base_freq_mhz := 2000
  epp := 50
  cppc_enabled := true }

/-- A machine in the scenario state: `msr_cap1` packs the scenario bounds,
the enable bit is set, and the request register holds the current request. -/
def m180 : Machine := {
  sc := sc180
  msr_cap1 := 3026462740
  msr_enable := 1
  msr_req := AMD_CPPC_REQ_BUILD 180 20 0 127 }

/-- The scenario machine with CPPC disabled (as after `amd_cppc_disable`). -/
def mDis : Machine := {
  sc := { sc180 with cppc_enabled := false }
  msr_cap1 := 3026462740
  msr_enable := 0
  msr_req := 0 }

/-- A freshly attached softc with no capability data yet. -/
def scInit : Softc := {
  highest_perf := 0
  nominal_perf := 0
  lowest_nonlinear_perf := 0
  lowest_perf := 0
  req_max_perf := 0
  req_min_perf := 0
  req_des_perf := 0
  req_epp := 0
  base_freq_mhz := 2000
  epp := 50
  cppc_enabled := false }

/-- A machine whose `CPPC_CAP1` value packs
`lowest=20, lowest_nl=5, nominal=100, highest=180`: the four bounds violate
`lowest_perf ≤ lowest_nonlinear_perf`, yet pass the driver's checks. -/
def mCaps5 : Machine := {
  sc := scInit
  msr_cap1 := 3026453780
  msr_enable := 0
  msr_req := 0 }

/-- A softc with `nominal_perf = 1` and the largest positive C `int` as
base frequency: `base * perf` overflows the `int` range for large `perf`. -/
def scB7 : Softc := {
  highest_perf := 255
  nominal_perf := 1
  lowest_nonlinear_perf := 1
  lowest_perf := 1
  req_max_perf := 255
  req_min_perf := 1
  req_des_perf := 0
  req_epp := 127
  base_freq_mhz := 2147483647
  epp := 50
  cppc_enabled := true }

/-- A valid tiny capability set (`lowest=1, nominal=2, highest=2`) with a
1 MHz base frequency: `mhz * nominal` overflows the 32-bit `int` range for
a large in-range `mhz`. -/
def scTiny : Softc := {
  highest_perf := 2
  nominal_perf := 2
  lowest_nonlinear_perf := 1
  lowest_perf := 1
  req_max_perf := 2
  req_min_perf := 1
  req_des_perf := 0
  req_epp := 127
  base_freq_mhz := 1
  epp := 50
  cppc_enabled := true }

/-!  Theorems.  -/

/-- C1 (counterexample): on the capability value packing
`lowest=20, lowest_nl=5, nominal=100, highest=180`, the four-way ordering
`lowest_perf ≤ lowest_nonlinear_perf` fails on the stored bounds, yet
`amd_cppc_read_caps` succeeds: the driver never checks
`lowest_nonlinear_perf`. -/
theorem c1_counterexample :
    (amd_cppc_read_caps mCaps5).2 = none ∧
    (amd_cppc_read_caps mCaps5).1.sc.lowest_nonlinear_perf <
      (amd_cppc_read_caps mCaps5).1.sc.lowest_perf := by
  decide

/-- C1 (amended): for every input, either `amd_cppc_read_caps` fails with
ENXIO, or it succeeds and the stored bounds satisfy the three-way ordering
`lowest_perf ≤ nominal_perf ≤ highest_perf` with highest/nominal/lowest all
nonzero; `lowest_nonlinear_perf` is not validated. -/
theorem c1_amended (m : Machine) :
    (amd_cppc_read_caps m).2 = some ENXIO ∨
    ((amd_cppc_read_caps m).2 = none ∧
      (amd_cppc_read_caps m).1.sc.lowest_perf ≤
        (amd_cppc_read_caps m).1.sc.nominal_perf ∧
      (amd_cppc_read_caps m).1.sc.nominal_perf ≤
        (amd_cppc_read_caps m).1.sc.highest_perf ∧
      (amd_cppc_read_caps m).1.sc.highest_perf ≠ 0 ∧
      (amd_cppc_read_caps m).1.sc.nominal_perf ≠ 0 ∧
      (amd_cppc_read_caps m).1.sc.lowest_perf ≠ 0) := by
  simp only [amd_cppc_read_caps]
  split_ifs with h1 h2
  · left; rfl
  · left; rfl
  · right
    push_neg at h1 h2
    exact ⟨rfl, h2.1, h2.2, h1.1, h1.2.1, h1.2.2⟩

/-- C2 (counterexample): `amd_cppc_disable` on the enabled scenario machine
does not zero the in-memory request state: `req_max_perf` is still 180
afterwards. -/
theorem c2_counterexample :
    m180.sc.cppc_enabled = true ∧
    (amd_cppc_disable m180).sc.req_max_perf = 180 ∧ (180 : Nat) ≠ 0 := by
  decide

/-- C2 (amended): `disable()` on an enabled instance zeroes the hardware
request register and clears the enabled flag but leaves the in-memory
request state (`req_max_perf`, `req_min_perf`, `req_des_perf`, `req_epp`)
intact; `get_current()` after `disable()` fails with ENXIO; and after a
subsequent `resume()` (which re-enables and re-writes the request) the
pre-disable `req_max_perf` is in effect again WITHOUT the caller re-issuing
`set_target`. -/
theorem c2_amended (m : Machine) (hen : m.sc.cppc_enabled = true)
    (hv : caps_valid m.msr_cap1) :
    (amd_cppc_disable m).sc.req_max_perf = m.sc.req_max_perf ∧
    (amd_cppc_disable m).sc.req_min_perf = m.sc.req_min_perf ∧
    (amd_cppc_disable m).sc.req_des_perf = m.sc.req_des_perf ∧
    (amd_cppc_disable m).sc.req_epp = m.sc.req_epp ∧
    (amd_cppc_disable m).sc.cppc_enabled = false ∧
    (amd_cppc_disable m).msr_req = 0 ∧
    amd_cppc_get (amd_cppc_disable m) = .error ENXIO ∧
    (amd_cppc_resume (amd_cppc_disable m)).2 = none ∧
    (amd_cppc_resume (amd_cppc_disable m)).1.sc.req_max_perf =
      m.sc.req_max_perf ∧
    (amd_cppc_resume (amd_cppc_disable m)).1.msr_req =
      AMD_CPPC_REQ_BUILD m.sc.req_max_perf m.sc.req_min_perf
        m.sc.req_des_perf m.sc.req_epp := by
  obtain ⟨hv1, hv2, hv3, hv4, hv5⟩ := hv
  have hnl : ¬ (AMD_CPPC_NOMINAL_PERF m.msr_cap1 <
      AMD_CPPC_LOWEST_PERF m.msr_cap1) := by omega
  have hhn : ¬ (AMD_CPPC_HIGHEST_PERF m.msr_cap1 <
      AMD_CPPC_NOMINAL_PERF m.msr_cap1) := by omega
  have hbit0 : (m.msr_enable &&& 0xFFFFFFFFFFFFFFFE) &&& 1 = 0 := by
    rw [Nat.and_assoc]; norm_num
  have hbit1 : ((m.msr_enable &&& 0xFFFFFFFFFFFFFFFE) ||| 1) &&& 1 = 1 := by
    rw [Nat.and_one_is_mod, Nat.or_mod_two_eq_one]; simp
  simp [amd_cppc_disable, hen, amd_cppc_get, amd_cppc_resume,
    amd_cppc_read_caps, amd_cppc_enable, amd_cppc_write_req,
    hv1, hv2, hv3, hnl, hhn, hbit0, hbit1]

/-- C2 (witness): concrete instance at the enabled scenario machine. -/
theorem c2_amended_witness :
    (amd_cppc_disable m180).sc.req_max_perf = m180.sc.req_max_perf ∧
    amd_cppc_get (amd_cppc_disable m180) = .error ENXIO ∧
    (amd_cppc_resume (amd_cppc_disable m180)).1.msr_req =
      AMD_CPPC_REQ_BUILD m180.sc.req_max_perf m180.sc.req_min_perf
        m180.sc.req_des_perf m180.sc.req_epp :=
  ⟨(c2_amended m180 rfl (by decide)).1,
   (c2_amended m180 rfl (by decide)).2.2.2.2.2.2.1,
   (c2_amended m180 rfl (by decide)).2.2.2.2.2.2.2.2.2⟩

/-- C3 (counterexample): for the scenario capability set and a budget of 30
entries, the generated list's final entry is 700 MHz (performance level 35),
not the 400 MHz value of `lowest_perf`: the budget is exhausted before the
stride reaches the floor, so the floor entry is never appended. -/
theorem c3_counterexample :
    amd_cppc_settings m180 30 =
      .ok ([3600, 3500, 3400, 3300, 3200, 3100, 3000, 2900, 2800, 2700,
        2600, 2500, 2400, 2300, 2200, 2100, 2000, 1900, 1800, 1700, 1600,
        1500, 1400, 1300, 1200, 1100, 1000, 900, 800, 700], 30) ∧
    ([3600, 3500, 3400, 3300, 3200, 3100, 3000, 2900, 2800, 2700,
      2600, 2500, 2400, 2300, 2200, 2100, 2000, 1900, 1800, 1700, 1600,
      1500, 1400, 1300, 1200, 1100, 1000, 900, 800, 700] :
        List Int).getLast? = some 700 ∧
    amd_cppc_perf_to_mhz sc180 sc180.lowest_perf = 400 ∧
    (700 : Int) ≠ 400 :=
  ⟨rfl, rfl, rfl, by decide⟩

/-- C3 (amended): with `highest=180, lowest=20, max_count=30` the stride is
5 and the enumerator produces exactly 30 strictly descending MHz values
ending at 700 MHz (level 35 = lowest + 15); the `lowest_perf` MHz value is
appended as final entry only when budget remains, as it is with a budget of
64, where 33 entries are produced ending at 400 MHz. -/
theorem c3_amended :
    amd_cppc_settings m180 30 =
      .ok ([3600, 3500, 3400, 3300, 3200, 3100, 3000, 2900, 2800, 2700,
        2600, 2500, 2400, 2300, 2200, 2100, 2000, 1900, 1800, 1700, 1600,
        1500, 1400, 1300, 1200, 1100, 1000, 900, 800, 700], 30) ∧
    strictlyDescending
      ([3600, 3500, 3400, 3300, 3200, 3100, 3000, 2900, 2800, 2700,
        2600, 2500, 2400, 2300, 2200, 2100, 2000, 1900, 1800, 1700, 1600,
        1500, 1400, 1300, 1200, 1100, 1000, 900, 800, 700] : List Int) =
      true ∧
    ([3600, 3500, 3400, 3300, 3200, 3100, 3000, 2900, 2800, 2700,
      2600, 2500, 2400, 2300, 2200, 2100, 2000, 1900, 1800, 1700, 1600,
      1500, 1400, 1300, 1200, 1100, 1000, 900, 800, 700] :
        List Int).length = 30 ∧
    ([3600, 3500, 3400, 3300, 3200, 3100, 3000, 2900, 2800, 2700,
      2600, 2500, 2400, 2300, 2200, 2100, 2000, 1900, 1800, 1700, 1600,
      1500, 1400, 1300, 1200, 1100, 1000, 900, 800, 700] :
        List Int).getLast? = some (amd_cppc_perf_to_mhz sc180 35) ∧
    amd_cppc_settings m180 64 =
      .ok ([3600, 3500, 3400, 3300, 3200, 3100, 3000, 2900, 2800, 2700,
        2600, 2500, 2400, 2300, 2200, 2100, 2000, 1900, 1800, 1700, 1600,
        1500, 1400, 1300, 1200, 1100, 1000, 900, 800, 700, 600, 500,
        400], 33) ∧
    ([(400 : Int)]).getLast? =
      some (amd_cppc_perf_to_mhz sc180 sc180.lowest_perf) :=
  ⟨rfl, rfl, rfl, rfl, rfl, rfl⟩

/-- C4: `amd_cppc_set` fails with ENXIO and leaves the whole machine
unchanged while CPPC is disabled; while enabled it succeeds, sets
`req_max_perf` to the converted target, `req_min_perf` to `lowest_perf`,
and `req_des_perf` to 0 (autonomous). -/
theorem c4_set_spec (m : Machine) (freq : Int) :
    (m.sc.cppc_enabled = false → amd_cppc_set m freq = (m, some ENXIO)) ∧
    (m.sc.cppc_enabled = true →
      (amd_cppc_set m freq).2 = none ∧
      (amd_cppc_set m freq).1.sc.req_max_perf =
        amd_cppc_mhz_to_perf m.sc freq ∧
      (amd_cppc_set m freq).1.sc.req_min_perf = m.sc.lowest_perf ∧
      (amd_cppc_set m freq).1.sc.req_des_perf = 0) := by
  constructor
  · intro h; simp [amd_cppc_set, h]
  · intro h; simp [amd_cppc_set, amd_cppc_write_req, h]

/-- C4 (witness): at the disabled scenario machine the call fails without
mutating anything, and at the enabled one it stores the converted target. -/
theorem c4_set_spec_witness :
    amd_cppc_set mDis 3000 = (mDis, some ENXIO) ∧
    (amd_cppc_set m180 3000).1.sc.req_max_perf =
      amd_cppc_mhz_to_perf m180.sc 3000 :=
  ⟨(c4_set_spec mDis 3000).1 rfl, ((c4_set_spec m180 3000).2 rfl).2.1⟩

/-- C6: the EPP handler rejects preferences outside `[0,100]` with EINVAL,
leaving machine state (stored preference, `req_epp`, registers) untouched;
an in-range preference is stored, `req_epp` becomes `epp_to_hw` of it, and
the combined request register is re-written exactly when CPPC is enabled. -/
theorem c6_sysctl_epp_spec (m : Machine) (epp : Int) :
    ((epp < 0 ∨ 100 < epp) → amd_cppc_sysctl_epp m epp = (m, some EINVAL)) ∧
    (0 ≤ epp → epp ≤ 100 →
      (amd_cppc_sysctl_epp m epp).2 = none ∧
      (amd_cppc_sysctl_epp m epp).1.sc.epp = epp ∧
      (amd_cppc_sysctl_epp m epp).1.sc.req_epp = amd_cppc_epp_to_hw epp ∧
      (m.sc.cppc_enabled = true →
        (amd_cppc_sysctl_epp m epp).1.msr_req =
          AMD_CPPC_REQ_BUILD m.sc.req_max_perf m.sc.req_min_perf
            m.sc.req_des_perf (amd_cppc_epp_to_hw epp)) ∧
      (m.sc.cppc_enabled = false →
        (amd_cppc_sysctl_epp m epp).1.msr_req = m.msr_req)) := by
  constructor
  · intro h; simp only [amd_cppc_sysctl_epp, if_pos h]
  · intro h1 h2
    have hc : ¬ (epp < 0 ∨ 100 < epp) := by omega
    simp only [amd_cppc_sysctl_epp, if_neg hc]
    by_cases he : m.sc.cppc_enabled <;>
      simp [he, amd_cppc_write_req]

/-- C6 (witness): at the scenario machine, EPP 200 is rejected unchanged
and EPP 80 is stored and written out. -/
theorem c6_sysctl_epp_spec_witness :
    amd_cppc_sysctl_epp m180 200 = (m180, some EINVAL) ∧
    (amd_cppc_sysctl_epp m180 80).1.sc.epp = 80 ∧
    (amd_cppc_sysctl_epp m180 80).1.msr_req =
      AMD_CPPC_REQ_BUILD m180.sc.req_max_perf m180.sc.req_min_perf
        m180.sc.req_des_perf (amd_cppc_epp_to_hw 80) :=
  ⟨(c6_sysctl_epp_spec m180 200).1 (by norm_num),
   ((c6_sysctl_epp_spec m180 80).2 (by norm_num) (by norm_num)).2.1,
   (((c6_sysctl_epp_spec m180 80).2 (by norm_num) (by norm_num)).2.2.2.1 rfl)⟩

/-- C9: `amd_cppc_epp_to_hw` clamps its argument to `[0,100]` and scales it
by `epp * 255 / 100` with truncation; in particular `epp_to_hw 0 = 0`,
`epp_to_hw 100 = 255`, and the map is monotonically non-decreasing. -/
theorem c9_epp_to_hw_spec (epp a b : Int) (hab : a ≤ b) :
    amd_cppc_epp_to_hw epp = (min 100 (max 0 epp)).toNat * 255 / 100 ∧
    amd_cppc_epp_to_hw 0 = 0 ∧
    amd_cppc_epp_to_hw 100 = 255 ∧
    amd_cppc_epp_to_hw a ≤ amd_cppc_epp_to_hw b := by
  have key : ∀ x : Int,
      amd_cppc_epp_to_hw x = (min 100 (max 0 x)).toNat * 255 / 100 := by
    intro x
    simp only [amd_cppc_epp_to_hw]
    have h2 : (if (if x < 0 then 0 else x) > 100 then (100 : Int)
        else (if x < 0 then 0 else x)) = min 100 (max 0 x) := by
      split_ifs <;> omega
    rw [h2]
    exact Nat.mod_eq_of_lt (by omega)
  refine ⟨key epp, by decide, by decide, ?_⟩
  rw [key a, key b]
  have hc : (min 100 (max 0 a)).toNat ≤ (min 100 (max 0 b)).toNat := by omega
  exact Nat.div_le_div_right (Nat.mul_le_mul_right _ hc)

/-- C9 (witness): instantiated at EPP 50 and the monotone pair 10 ≤ 20. -/
theorem c9_epp_to_hw_spec_witness :
    amd_cppc_epp_to_hw 50 = (min 100 (max 0 (50 : Int))).toNat * 255 / 100 ∧
    amd_cppc_epp_to_hw 10 ≤ amd_cppc_epp_to_hw 20 :=
  ⟨(c9_epp_to_hw_spec 50 10 20 (by norm_num)).1,
   (c9_epp_to_hw_spec 50 10 20 (by norm_num)).2.2.2⟩

/-- Normalisation of `amd_cppc_perf_to_mhz` when the base frequency is a
nonnegative `int` and the quotient fits the `int` range: the conversion is
the plain truncating `base * perf / nominal`. -/
theorem perf_to_mhz_eq (sc : Softc) (perf : Nat)
    (hb0 : 0 ≤ sc.base_freq_mhz) (hb1 : sc.base_freq_mhz < 2147483648)
    (hn : sc.nominal_perf < 256) (hn0 : sc.nominal_perf ≠ 0)
    (hq : sc.base_freq_mhz.toNat * perf / sc.nominal_perf < 2147483648) :
    amd_cppc_perf_to_mhz sc perf =
      ((sc.base_freq_mhz.toNat * perf / sc.nominal_perf : Nat) : Int) := by
  have hnpos : 0 < sc.nominal_perf := Nat.pos_of_ne_zero hn0
  simp only [amd_cppc_perf_to_mhz, if_neg hn0]
  have hU : toU64 sc.base_freq_mhz = sc.base_freq_mhz.toNat := by
    unfold toU64; congr 1; omega
  rw [hU]
  have hprod : sc.base_freq_mhz.toNat * perf < 18446744073709551616 := by
    have h2 := (Nat.div_lt_iff_lt_mul hnpos).mp hq
    have h3 : 2147483648 * sc.nominal_perf ≤ 2147483648 * 256 :=
      Nat.mul_le_mul_left _ (le_of_lt hn)
    omega
  rw [Nat.mod_eq_of_lt hprod]
  simp only [toInt32]
  rw [Nat.mod_eq_of_lt (show sc.base_freq_mhz.toNat * perf /
    sc.nominal_perf < 4294967296 by omega)]
  rw [if_pos hq]

/-- Normalisation of `amd_cppc_mhz_to_perf` for a nonnegative `int` input
whose quotient fits the `int` range: the conversion is the clamp of the
truncating `mhz * nominal / base` into `[lowest_perf, highest_perf]`. -/
theorem mhz_to_perf_nonneg_eq (sc : Softc) (mhz : Int)
    (h0 : 0 ≤ mhz) (h1 : mhz < 2147483648)
    (hb : 0 < sc.base_freq_mhz) (hb1 : sc.base_freq_mhz < 2147483648)
    (hn : sc.nominal_perf < 256)
    (hlh : sc.lowest_perf ≤ sc.highest_perf) (hh : sc.highest_perf < 256)
    (hq : mhz.toNat * sc.nominal_perf / sc.base_freq_mhz.toNat <
      2147483648) :
    amd_cppc_mhz_to_perf sc mhz =
      min sc.highest_perf (max sc.lowest_perf
        (mhz.toNat * sc.nominal_perf / sc.base_freq_mhz.toNat)) := by
  have hbne : sc.base_freq_mhz ≠ 0 := by omega
  simp only [amd_cppc_mhz_to_perf, if_neg hbne]
  have hU : toU64 mhz = mhz.toNat := by
    unfold toU64; congr 1; omega
  have hUb : toU64 sc.base_freq_mhz = sc.base_freq_mhz.toNat := by
    unfold toU64; congr 1; omega
  rw [hU, hUb]
  have hprod : mhz.toNat * sc.nominal_perf < 18446744073709551616 := by
    have h2 : mhz.toNat * sc.nominal_perf ≤ 2147483648 * 256 :=
      Nat.mul_le_mul (by omega) (le_of_lt hn)
    omega
  rw [Nat.mod_eq_of_lt hprod]
  simp only [toInt32]
  rw [Nat.mod_eq_of_lt (show mhz.toNat * sc.nominal_perf /
    sc.base_freq_mhz.toNat < 4294967296 by omega)]
  rw [if_pos hq]
  split_ifs <;> omega

/-- Core arithmetic of the perf/MHz round trip: converting `fn` MHz to a
performance level (`fn * n / b`) and back (`b * level / n`) never exceeds
`fn` and undershoots by less than `b / n + 2`, i.e. by at most one
performance-level's MHz granularity plus the truncation loss. -/
theorem div_div_round_trip (fn n b : Nat) (hn0 : 0 < n) (hb : 0 < b) :
    b * (fn * n / b) / n ≤ fn ∧
    fn ≤ b * (fn * n / b) / n + b / n + 1 := by
  have e1 := Nat.div_add_mod (fn * n) b
  have hr1 : (fn * n) % b < b := Nat.mod_lt _ hb
  have e2 := Nat.div_add_mod (b * (fn * n / b)) n
  have hr2 : b * (fn * n / b) % n < n := Nat.mod_lt _ hn0
  have e3 := Nat.div_add_mod b n
  have hr3 : b % n < n := Nat.mod_lt _ hn0
  constructor
  · refine Nat.le_of_mul_le_mul_left ?_ hn0
    calc n * (b * (fn * n / b) / n) ≤ b * (fn * n / b) := by omega
      _ ≤ fn * n := by omega
      _ = n * fn := by ring
  · have hexp : n * (b * (fn * n / b) / n + b / n + 2) =
        n * (b * (fn * n / b) / n) + n * (b / n) + 2 * n := by ring
    have hc : fn * n = n * fn := by ring
    have hlt : n * fn < n * (b * (fn * n / b) / n + b / n + 2) := by omega
    have := Nat.lt_of_mul_lt_mul_left hlt
    omega

/-- `toInt32` never exceeds the `uint64` value it truncates. -/
theorem toInt32_le (v : Nat) : toInt32 v ≤ (v : Int) := by
  simp only [toInt32]
  split_ifs <;> omega

/-- `toInt32` always yields a value below 2^31. -/
theorem toInt32_lt (v : Nat) : toInt32 v < 2147483648 := by
  simp only [toInt32]
  split_ifs <;> omega

/-- `amd_cppc_perf_to_mhz` for a positive-`int` base and a `uint8`
performance level is the `int` truncation of the exact quotient (no
`uint64` wrap is possible: the product is below 2^39). -/
theorem perf_to_mhz_toInt32 (sc : Softc) (perf : Nat)
    (hb0 : 0 ≤ sc.base_freq_mhz) (hb1 : sc.base_freq_mhz < 2147483648)
    (hn0 : sc.nominal_perf ≠ 0) (hp : perf < 256) :
    amd_cppc_perf_to_mhz sc perf =
      toInt32 (sc.base_freq_mhz.toNat * perf / sc.nominal_perf) := by
  simp only [amd_cppc_perf_to_mhz, if_neg hn0]
  have hU : toU64 sc.base_freq_mhz = sc.base_freq_mhz.toNat := by
    unfold toU64; congr 1; omega
  rw [hU]
  have hprod : sc.base_freq_mhz.toNat * perf < 18446744073709551616 := by
    have h2 : sc.base_freq_mhz.toNat * perf ≤ 2147483648 * 256 :=
      Nat.mul_le_mul (by omega) (le_of_lt hp)
    omega
  rw [Nat.mod_eq_of_lt hprod]

/-- C5: with validated capabilities (`0 < lowest ≤ nominal ≤ highest`,
`uint8` bounds) and the positive-`int` base frequency established at
attach, for every `f` in `[perf_to_mhz(lowest), perf_to_mhz(highest)]` the
round trip `perf_to_mhz(mhz_to_perf(f))` never exceeds `f` and undershoots
it by at most `base/nominal + 1` MHz — one performance-level's MHz
granularity plus the truncation loss — and `mhz_to_perf` is monotone over
the range.  No extra overflow hypothesis is needed: `lowest ≤ nominal`
keeps the floor image below `base < 2^31`, the ceiling image is below 2^31
by construction of the `int` cast, and the round-trip image is bounded by
`f` itself, so no conversion in the range ever wraps. -/
theorem c5_roundtrip_monotone (sc : Softc) (f f1 f2 : Int)
    (hb : 0 < sc.base_freq_mhz) (hb1 : sc.base_freq_mhz < 2147483648)
    (hl0 : 0 < sc.lowest_perf) (hln : sc.lowest_perf ≤ sc.nominal_perf)
    (hnh : sc.nominal_perf ≤ sc.highest_perf) (hh : sc.highest_perf < 256)
    (hfl : amd_cppc_perf_to_mhz sc sc.lowest_perf ≤ f)
    (hfh : f ≤ amd_cppc_perf_to_mhz sc sc.highest_perf)
    (h1l : amd_cppc_perf_to_mhz sc sc.lowest_perf ≤ f1)
    (h1h : f1 ≤ amd_cppc_perf_to_mhz sc sc.highest_perf)
    (h2l : amd_cppc_perf_to_mhz sc sc.lowest_perf ≤ f2)
    (h2h : f2 ≤ amd_cppc_perf_to_mhz sc sc.highest_perf)
    (h12 : f1 ≤ f2) :
    amd_cppc_perf_to_mhz sc (amd_cppc_mhz_to_perf sc f) ≤ f ∧
    f ≤ amd_cppc_perf_to_mhz sc (amd_cppc_mhz_to_perf sc f) +
      ((sc.base_freq_mhz.toNat / sc.nominal_perf + 1 : Nat) : Int) ∧
    amd_cppc_mhz_to_perf sc f1 ≤ amd_cppc_mhz_to_perf sc f2 := by
  have hn0 : 0 < sc.nominal_perf := lt_of_lt_of_le hl0 hln
  have hnn0 : sc.nominal_perf ≠ 0 := by omega
  have hn : sc.nominal_perf < 256 := by omega
  have hlh : sc.lowest_perf ≤ sc.highest_perf := le_trans hln hnh
  have hbp : 0 < sc.base_freq_mhz.toNat := by omega
  have hfloorq : sc.base_freq_mhz.toNat * sc.lowest_perf /
      sc.nominal_perf < 2147483648 := by
    have h2 : sc.base_freq_mhz.toNat * sc.lowest_perf ≤
        sc.base_freq_mhz.toNat * sc.nominal_perf :=
      Nat.mul_le_mul_left _ hln
    have h3 : sc.base_freq_mhz.toNat * sc.lowest_perf /
        sc.nominal_perf ≤ sc.base_freq_mhz.toNat * sc.nominal_perf /
        sc.nominal_perf := Nat.div_le_div_right h2
    have h4 : sc.base_freq_mhz.toNat * sc.nominal_perf /
        sc.nominal_perf = sc.base_freq_mhz.toNat :=
      Nat.mul_div_cancel _ hn0
    omega
  have hPl := perf_to_mhz_eq sc sc.lowest_perf hb.le hb1 hn hnn0 hfloorq
  have hPh32 := perf_to_mhz_toInt32 sc sc.highest_perf hb.le hb1 hnn0
    (by omega)
  have hPhle : amd_cppc_perf_to_mhz sc sc.highest_perf ≤
      ((sc.base_freq_mhz.toNat * sc.highest_perf / sc.nominal_perf :
        Nat) : Int) := by
    rw [hPh32]; exact toInt32_le _
  have hPhlt : amd_cppc_perf_to_mhz sc sc.highest_perf < 2147483648 := by
    rw [hPh32]; exact toInt32_lt _
  have hqle : ∀ g : Int, g ≤ amd_cppc_perf_to_mhz sc sc.highest_perf →
      g.toNat * sc.nominal_perf / sc.base_freq_mhz.toNat ≤
        sc.highest_perf := by
    intro g hgh
    have hgn : g.toNat ≤ sc.base_freq_mhz.toNat * sc.highest_perf /
        sc.nominal_perf := Int.toNat_le.mpr (le_trans hgh hPhle)
    have hmn : (sc.base_freq_mhz.toNat * sc.highest_perf /
        sc.nominal_perf) * sc.nominal_perf ≤
        sc.base_freq_mhz.toNat * sc.highest_perf := Nat.div_mul_le_self _ _
    have h4 : g.toNat * sc.nominal_perf ≤
        sc.base_freq_mhz.toNat * sc.highest_perf := by
      have h5 : g.toNat * sc.nominal_perf ≤
          (sc.base_freq_mhz.toNat * sc.highest_perf / sc.nominal_perf) *
            sc.nominal_perf := Nat.mul_le_mul_right _ hgn
      omega
    have h6 : g.toNat * sc.nominal_perf / sc.base_freq_mhz.toNat ≤
        sc.base_freq_mhz.toNat * sc.highest_perf /
          sc.base_freq_mhz.toNat := Nat.div_le_div_right h4
    have h7 : sc.base_freq_mhz.toNat * sc.highest_perf /
        sc.base_freq_mhz.toNat = sc.highest_perf :=
      Nat.mul_div_cancel_left _ hbp
    omega
  have hnorm : ∀ g : Int,
      amd_cppc_perf_to_mhz sc sc.lowest_perf ≤ g →
      g ≤ amd_cppc_perf_to_mhz sc sc.highest_perf →
      amd_cppc_mhz_to_perf sc g =
        min sc.highest_perf (max sc.lowest_perf
          (g.toNat * sc.nominal_perf / sc.base_freq_mhz.toNat)) := by
    intro g hgl hgh
    have hg0 : 0 ≤ g := by
      rw [hPl] at hgl
      exact le_trans (Int.natCast_nonneg _) hgl
    have hg1 : g < 2147483648 := lt_of_le_of_lt hgh hPhlt
    exact mhz_to_perf_nonneg_eq sc g hg0 hg1 hb hb1 hn hlh hh
      (by have := hqle g hgh; omega)
  have hf0 : 0 ≤ f := by
    rw [hPl] at hfl
    exact le_trans (Int.natCast_nonneg _) hfl
  have hfn31 : f.toNat < 2147483648 := by
    have := lt_of_le_of_lt hfh hPhlt
    omega
  have hkey := hnorm f hfl hfh
  have hfl2 : sc.base_freq_mhz.toNat * sc.lowest_perf / sc.nominal_perf ≤
      f.toNat := by
    rw [hPl, ← Int.toNat_of_nonneg hf0] at hfl
    exact_mod_cast hfl
  have hq_le := hqle f hfh
  have hrt := div_div_round_trip f.toNat sc.nominal_perf
    sc.base_freq_mhz.toNat hn0 hbp
  refine ⟨?_, ?_, ?_⟩
  · by_cases hcase : f.toNat * sc.nominal_perf / sc.base_freq_mhz.toNat <
        sc.lowest_perf
    · have hr : min sc.highest_perf (max sc.lowest_perf
          (f.toNat * sc.nominal_perf / sc.base_freq_mhz.toNat)) =
          sc.lowest_perf := by omega
      rw [hkey, hr, hPl, ← Int.toNat_of_nonneg hf0]
      exact_mod_cast hfl2
    · have hr : min sc.highest_perf (max sc.lowest_perf
          (f.toNat * sc.nominal_perf / sc.base_freq_mhz.toNat)) =
          f.toNat * sc.nominal_perf / sc.base_freq_mhz.toNat := by omega
      have hgq : sc.base_freq_mhz.toNat *
          (f.toNat * sc.nominal_perf / sc.base_freq_mhz.toNat) /
          sc.nominal_perf < 2147483648 := by omega
      rw [hkey, hr, perf_to_mhz_eq sc _ hb.le hb1 hn hnn0 hgq,
        ← Int.toNat_of_nonneg hf0]
      exact_mod_cast hrt.1
  · by_cases hcase : f.toNat * sc.nominal_perf / sc.base_freq_mhz.toNat <
        sc.lowest_perf
    · have hr : min sc.highest_perf (max sc.lowest_perf
          (f.toNat * sc.nominal_perf / sc.base_freq_mhz.toNat)) =
          sc.lowest_perf := by omega
      have hql := (Nat.div_lt_iff_lt_mul hbp).mp hcase
      have hfu : f.toNat ≤ sc.base_freq_mhz.toNat * sc.lowest_perf /
          sc.nominal_perf := by
        refine (Nat.le_div_iff_mul_le hn0).mpr ?_
        calc f.toNat * sc.nominal_perf
            ≤ sc.lowest_perf * sc.base_freq_mhz.toNat := le_of_lt hql
          _ = sc.base_freq_mhz.toNat * sc.lowest_perf := by ring
      rw [hkey, hr, hPl, ← Int.toNat_of_nonneg hf0]
      exact_mod_cast le_trans hfu (Nat.le_add_right _ _)
    · have hr : min sc.highest_perf (max sc.lowest_perf
          (f.toNat * sc.nominal_perf / sc.base_freq_mhz.toNat)) =
          f.toNat * sc.nominal_perf / sc.base_freq_mhz.toNat := by omega
      have hgq : sc.base_freq_mhz.toNat *
          (f.toNat * sc.nominal_perf / sc.base_freq_mhz.toNat) /
          sc.nominal_perf < 2147483648 := by omega
      rw [hkey, hr, perf_to_mhz_eq sc _ hb.le hb1 hn hnn0 hgq,
        ← Int.toNat_of_nonneg hf0]
      exact_mod_cast hrt.2
  · have hk1 := hnorm f1 h1l h1h
    have hk2 := hnorm f2 h2l h2h
    rw [hk1, hk2]
    have hq12 : f1.toNat * sc.nominal_perf / sc.base_freq_mhz.toNat ≤
        f2.toNat * sc.nominal_perf / sc.base_freq_mhz.toNat :=
      Nat.div_le_div_right
        (Nat.mul_le_mul_right _ (Int.toNat_le_toNat h12))
    exact min_le_min (le_refl _) (max_le_max (le_refl _) hq12)

/-- C5 (witness): at the scenario softc with `f = 3000`, `f1 = 2995`,
`f2 = 3000`. -/
theorem c5_roundtrip_monotone_witness :
    amd_cppc_perf_to_mhz sc180 (amd_cppc_mhz_to_perf sc180 3000) ≤ 3000 ∧
    amd_cppc_mhz_to_perf sc180 2995 ≤ amd_cppc_mhz_to_perf sc180 3000 := by
  have h := c5_roundtrip_monotone sc180 3000 2995 3000 (by decide)
    (by decide) (by decide) (by decide) (by decide) (by decide)
    (by decide) (by decide) (by decide) (by decide) (by decide)
    (by decide) (by decide)
  exact ⟨h.1, h.2.2⟩

/-- C7 (counterexample): with `nominal_perf = 1` and the largest positive
`int` base frequency, `perf_to_mhz(255)` is 2147483393, not the exact
truncated quotient 547608329985: the `uint64` quotient is cast back to a
32-bit `int`, so the claimed exact equality fails once the product
overflows the `int` range. -/
theorem c7_counterexample :
    amd_cppc_perf_to_mhz scB7 255 = 2147483393 ∧
    (scB7.base_freq_mhz.toNat * 255 / scB7.nominal_perf : Nat) =
      547608329985 ∧
    (2147483393 : Int) ≠ 547608329985 :=
  ⟨rfl, rfl, by decide⟩

/-- C7 (amended): whenever the quotient fits the 32-bit `int` range
(always the case for realistic base frequencies), `perf_to_mhz` is exactly
the truncating `base_freq_mhz * perf / nominal_perf`, and it returns 0 when
`nominal_perf` is 0; the scenario values 2000/3600/400 MHz hold. -/
theorem c7_amended (sc : Softc) (perf : Nat)
    (hb0 : 0 ≤ sc.base_freq_mhz) (hb1 : sc.base_freq_mhz < 2147483648)
    (hn : sc.nominal_perf < 256)
    (hq : sc.base_freq_mhz.toNat * perf / sc.nominal_perf < 2147483648) :
    (sc.nominal_perf = 0 → amd_cppc_perf_to_mhz sc perf = 0) ∧
    (sc.nominal_perf ≠ 0 →
      amd_cppc_perf_to_mhz sc perf =
        ((sc.base_freq_mhz.toNat * perf / sc.nominal_perf : Nat) : Int)) ∧
    amd_cppc_perf_to_mhz sc180 100 = 2000 ∧
    amd_cppc_perf_to_mhz sc180 180 = 3600 ∧
    amd_cppc_perf_to_mhz sc180 20 = 400 := by
  refine ⟨?_, ?_, rfl, rfl, rfl⟩
  · intro h0; simp [amd_cppc_perf_to_mhz, h0]
  · intro hn0; exact perf_to_mhz_eq sc perf hb0 hb1 hn hn0 hq

/-- C7 (witness): the scenario conversion at performance level 180. -/
theorem c7_amended_witness :
    amd_cppc_perf_to_mhz sc180 180 =
      ((sc180.base_freq_mhz.toNat * 180 / sc180.nominal_perf : Nat) :
        Int) :=
  (c7_amended sc180 180 (by decide) (by decide) (by decide)
    (by decide)).2.1 (by decide)

/-- C8 (counterexample): for the valid capability set `scTiny`
(`lowest=1, nominal=2, highest=2, base=1`), the ceiling frequency is
`perf_to_mhz(highest) = 1`, yet `mhz_to_perf(2147483647)` — far above the
ceiling — returns `lowest_perf = 1`, not `highest_perf = 2`: the `uint64`
quotient 4294967294 wraps to the `int` −2, which the clamp pins to the
LOWER bound. -/
theorem c8_counterexample :
    amd_cppc_perf_to_mhz scTiny scTiny.highest_perf = 1 ∧
    (1 : Int) < 2147483647 ∧
    amd_cppc_mhz_to_perf scTiny 2147483647 = 1 ∧
    scTiny.lowest_perf = 1 ∧ scTiny.highest_perf = 2 ∧ (1 : Nat) ≠ 2 :=
  ⟨rfl, by decide, rfl, rfl, rfl, by decide⟩

/-- C8 (amended): for nonnegative `mhz` whose quotient fits the 32-bit
`int` range, `mhz_to_perf` is exactly `mhz * nominal / base` clamped into
`[lowest_perf, highest_perf]`; every such `mhz` below the floor frequency
maps to `lowest_perf` and every one above the ceiling maps to
`highest_perf`; and `mhz_to_perf` returns `nominal_perf` whenever
`base_freq_mhz` is 0. -/
theorem c8_amended (sc : Softc) (mhz : Int)
    (h0 : 0 ≤ mhz) (h1 : mhz < 2147483648)
    (hb : 0 < sc.base_freq_mhz) (hb1 : sc.base_freq_mhz < 2147483648)
    (hn0 : 0 < sc.nominal_perf) (hn : sc.nominal_perf < 256)
    (hlh : sc.lowest_perf ≤ sc.highest_perf) (hh : sc.highest_perf < 256)
    (hq : mhz.toNat * sc.nominal_perf / sc.base_freq_mhz.toNat <
      2147483648)
    (hceil : sc.base_freq_mhz.toNat * sc.highest_perf / sc.nominal_perf <
      2147483648) :
    amd_cppc_mhz_to_perf sc mhz =
      min sc.highest_perf (max sc.lowest_perf
        (mhz.toNat * sc.nominal_perf / sc.base_freq_mhz.toNat)) ∧
    (mhz < amd_cppc_perf_to_mhz sc sc.lowest_perf →
      amd_cppc_mhz_to_perf sc mhz = sc.lowest_perf) ∧
    (amd_cppc_perf_to_mhz sc sc.highest_perf < mhz →
      amd_cppc_mhz_to_perf sc mhz = sc.highest_perf) ∧
    (∀ (sc2 : Softc) (z : Int), sc2.base_freq_mhz = 0 →
      amd_cppc_mhz_to_perf sc2 z = sc2.nominal_perf) := by
  have hbp : 0 < sc.base_freq_mhz.toNat := by omega
  have hnn0 : sc.nominal_perf ≠ 0 := by omega
  have hfloorq : sc.base_freq_mhz.toNat * sc.lowest_perf /
      sc.nominal_perf < 2147483648 := by
    have h2 : sc.base_freq_mhz.toNat * sc.lowest_perf ≤
        sc.base_freq_mhz.toNat * sc.highest_perf :=
      Nat.mul_le_mul_left _ hlh
    have h3 : sc.base_freq_mhz.toNat * sc.lowest_perf /
        sc.nominal_perf ≤ sc.base_freq_mhz.toNat * sc.highest_perf /
        sc.nominal_perf := Nat.div_le_div_right h2
    omega
  have key := mhz_to_perf_nonneg_eq sc mhz h0 h1 hb hb1 hn hlh hh hq
  have hPl := perf_to_mhz_eq sc sc.lowest_perf hb.le hb1 hn hnn0 hfloorq
  have hPh := perf_to_mhz_eq sc sc.highest_perf hb.le hb1 hn hnn0 hceil
  refine ⟨key, ?_, ?_, ?_⟩
  · intro hbelow
    rw [hPl] at hbelow
    rw [key]
    have hfn : mhz.toNat < sc.base_freq_mhz.toNat * sc.lowest_perf /
        sc.nominal_perf := by omega
    have hmn : (sc.base_freq_mhz.toNat * sc.lowest_perf /
        sc.nominal_perf) * sc.nominal_perf ≤
        sc.base_freq_mhz.toNat * sc.lowest_perf := Nat.div_mul_le_self _ _
    have hmul : (mhz.toNat + 1) * sc.nominal_perf ≤
        (sc.base_freq_mhz.toNat * sc.lowest_perf / sc.nominal_perf) *
          sc.nominal_perf :=
      Nat.mul_le_mul_right _ (by omega)
    have hql : mhz.toNat * sc.nominal_perf <
        sc.lowest_perf * sc.base_freq_mhz.toNat := by
      have hexp : (mhz.toNat + 1) * sc.nominal_perf =
          mhz.toNat * sc.nominal_perf + sc.nominal_perf := by ring
      have hcomm : sc.lowest_perf * sc.base_freq_mhz.toNat =
          sc.base_freq_mhz.toNat * sc.lowest_perf := by ring
      omega
    have hq2 : mhz.toNat * sc.nominal_perf / sc.base_freq_mhz.toNat <
        sc.lowest_perf := (Nat.div_lt_iff_lt_mul hbp).mpr hql
    omega
  · intro habove
    rw [hPh] at habove
    rw [key]
    have hfn : sc.base_freq_mhz.toNat * sc.highest_perf /
        sc.nominal_perf < mhz.toNat := by omega
    have hdm := Nat.div_add_mod (sc.base_freq_mhz.toNat *
      sc.highest_perf) sc.nominal_perf
    have hmod : sc.base_freq_mhz.toNat * sc.highest_perf %
        sc.nominal_perf < sc.nominal_perf :=
      Nat.mod_lt _ hn0
    have hmul : (sc.base_freq_mhz.toNat * sc.highest_perf /
        sc.nominal_perf + 1) * sc.nominal_perf ≤
        mhz.toNat * sc.nominal_perf :=
      Nat.mul_le_mul_right _ (by omega)
    have hge : sc.highest_perf * sc.base_freq_mhz.toNat ≤
        mhz.toNat * sc.nominal_perf := by
      have hexp : (sc.base_freq_mhz.toNat * sc.highest_perf /
          sc.nominal_perf + 1) * sc.nominal_perf =
          sc.nominal_perf * (sc.base_freq_mhz.toNat * sc.highest_perf /
            sc.nominal_perf) + sc.nominal_perf := by ring
      have hcomm : sc.highest_perf * sc.base_freq_mhz.toNat =
          sc.base_freq_mhz.toNat * sc.highest_perf := by ring
      omega
    have hq2 : sc.highest_perf ≤
        mhz.toNat * sc.nominal_perf / sc.base_freq_mhz.toNat :=
      (Nat.le_div_iff_mul_le hbp).mpr hge
    omega
  · intro sc2 z hz
    simp [amd_cppc_mhz_to_perf, hz]

/-- C8 (witness): the scenario set: 100 MHz sits below the 400 MHz floor
and maps to `lowest_perf`; 3000 MHz maps through the clamp formula. -/
theorem c8_amended_witness :
    amd_cppc_mhz_to_perf sc180 100 = sc180.lowest_perf ∧
    amd_cppc_mhz_to_perf sc180 3000 =
      min sc180.highest_perf (max sc180.lowest_perf
        ((3000 : Int).toNat * sc180.nominal_perf /
          sc180.base_freq_mhz.toNat)) := by
  have h1 := c8_amended sc180 100 (by decide) (by decide) (by decide)
    (by decide) (by decide) (by decide) (by decide) (by decide)
    (by decide) (by decide)
  have h2 := c8_amended sc180 3000 (by decide) (by decide) (by decide)
    (by decide) (by decide) (by decide) (by decide) (by decide)
    (by decide) (by decide)
  exact ⟨h1.2.1 (by decide), h2.1⟩

/-- C10 (counterexample): for the scenario capability set (`base = 2000`),
`mhz_to_perf(-1)` is 20 = `lowest_perf`, not `highest_perf` = 180: the
huge `uint64` quotient is truncated to a 32-bit `int`, which here is
negative, so the clamp pins to the LOWER bound.  Consequently `set_target`
with a negative frequency caps performance at `lowest_perf`. -/
theorem c10_counterexample :
    (-1 : Int) < 0 ∧
    amd_cppc_mhz_to_perf sc180 (-1) = 20 ∧
    sc180.lowest_perf = 20 ∧ sc180.highest_perf = 180 ∧
    (20 : Nat) ≠ 180 ∧
    (amd_cppc_set m180 (-1)).1.sc.req_max_perf = 20 :=
  ⟨by decide, rfl, rfl, rfl, by decide, rfl⟩

/-- C10 (amended): for the scenario capability set and `base = 2000`,
EVERY representable negative `mhz` maps to `lowest_perf`: the wrapped
quotient `(2^64 + 100*mhz) / 2000` always has its low 32 bits in the
negative `int` half-range, so the conversion clamps to the lower bound and
`set_target` with a negative frequency caps performance at `lowest_perf`,
the opposite bound from the one claimed. -/
theorem c10_amended (mhz : Int) (hneg : mhz < 0)
    (hge : -2147483648 ≤ mhz) :
    amd_cppc_mhz_to_perf sc180 mhz = sc180.lowest_perf ∧
    (amd_cppc_set m180 mhz).1.sc.req_max_perf = sc180.lowest_perf := by
  have key : amd_cppc_mhz_to_perf sc180 mhz = 20 := by
    have hbne : sc180.base_freq_mhz ≠ 0 := by decide
    simp only [amd_cppc_mhz_to_perf, if_neg hbne]
    have hU : toU64 mhz = (mhz + 18446744073709551616).toNat := by
      unfold toU64; congr 1; omega
    have hnom : sc180.nominal_perf = 100 := rfl
    have hlow : (sc180.lowest_perf : Int) = 20 := rfl
    have hhigh : (sc180.highest_perf : Int) = 180 := rfl
    have hUb : toU64 sc180.base_freq_mhz = 2000 := rfl
    rw [hU, hnom, hlow, hhigh, hUb]
    have hK1 : 18446744073709551616 - 2147483648 ≤
        (mhz + 18446744073709551616).toNat := by omega
    have hK2 : (mhz + 18446744073709551616).toNat ≤
        18446744073709551615 := by omega
    have hD : (mhz + 18446744073709551616).toNat * 100 %
        18446744073709551616 =
        (mhz + 18446744073709551616).toNat * 100 -
          99 * 18446744073709551616 := by omega
    rw [hD]
    have hq1 : 9223371929480593 ≤
        ((mhz + 18446744073709551616).toNat * 100 -
          99 * 18446744073709551616) / 2000 := by omega
    have hq2 : ((mhz + 18446744073709551616).toNat * 100 -
          99 * 18446744073709551616) / 2000 ≤ 9223372036854775 := by
      omega
    simp only [toInt32]
    generalize hQ : ((mhz + 18446744073709551616).toNat * 100 -
        99 * 18446744073709551616) / 2000 = Q at hq1 hq2 ⊢
    have hc1 : ¬ (Q % 4294967296 < 2147483648) := by omega
    rw [if_neg hc1]
    have hc2 : ((Q % 4294967296 : Nat) : Int) - 4294967296 < 20 := by
      omega
    rw [if_pos hc2]
    have hc3 : ¬ ((20 : Int) > 180) := by norm_num
    rw [if_neg hc3]
    decide
  refine ⟨key, ?_⟩
  simp only [amd_cppc_set, amd_cppc_write_req]
  rw [if_neg (by decide : ¬ ¬ m180.sc.cppc_enabled = true)]
  show amd_cppc_mhz_to_perf m180.sc mhz = sc180.lowest_perf
  exact key

/-- C10 (witness): the scenario conversion at −5 MHz. -/
theorem c10_amended_witness :
    amd_cppc_mhz_to_perf sc180 (-5) = sc180.lowest_perf ∧
    (amd_cppc_set m180 (-5)).1.sc.req_max_perf = sc180.lowest_perf :=
  c10_amended (-5) (by decide) (by decide)

end AmdCppc
